import Mathlib

/-!
Verification of the pat-app Attester and Origin core logic
(src/commands/attester.go, src/commands/origin.go) against its
natural-language specification.

Go maps are modelled as association lists with first-match lookup;
insertion replaces any previous binding.  External protocol primitives
(ECDSA/RSA verification, SHA digests, index derivation, the network) are
deterministic opaque operations and enter the model as oracle fields of
the request/response structures, exactly where the Go code consumes their
results.
-/

set_option autoImplicit false

/-- First-match lookup in an association-list model of a Go map. -/
def mlookup {V : Type} : List (String × V) → String → Option V
  | [], _ => none
  | (k', v) :: rest, k => if k' = k then some v else mlookup rest k

/-- Remove every binding of key `k` (Go `delete(m, k)`). -/
def merase {V : Type} : List (String × V) → String → List (String × V)
  | [], _ => []
  | (k', v) :: rest, k =>
      if k' = k then merase rest k else (k', v) :: merase rest k

/-- Go `m[k] = v`: bind `k` to `v`, replacing any previous binding. -/
def minsert {V : Type} (m : List (String × V)) (k : String) (v : V) :
    List (String × V) :=
  (k, v) :: merase m k

theorem mlookup_merase_self {V : Type} (m : List (String × V)) (k : String) :
    mlookup (merase m k) k = none := by
  induction m with
  | nil => rfl
  | cons p rest ih =>
      obtain ⟨k₀, v₀⟩ := p
      by_cases hk : k₀ = k
      · rw [merase, if_pos hk, ih]
      · rw [merase, if_neg hk, mlookup, if_neg hk, ih]

theorem mlookup_merase_ne {V : Type} (m : List (String × V)) (k k' : String)
    (h : k ≠ k') : mlookup (merase m k) k' = mlookup m k' := by
  induction m with
  | nil => rfl
  | cons p rest ih =>
      obtain ⟨k₀, v₀⟩ := p
      by_cases hk : k₀ = k
      · subst hk
        rw [merase, if_pos rfl, ih, mlookup, if_neg h]
      · rw [merase, if_neg hk, mlookup, mlookup]
        by_cases hk' : k₀ = k'
        · rw [if_pos hk', if_pos hk']
        · rw [if_neg hk', if_neg hk', ih]

theorem mlookup_minsert_self {V : Type} (m : List (String × V)) (k : String)
    (v : V) : mlookup (minsert m k v) k = some v := by
  rw [minsert, mlookup, if_pos rfl]

theorem mlookup_minsert_ne {V : Type} (m : List (String × V)) (k k' : String)
    (v : V) (h : k ≠ k') : mlookup (minsert m k v) k' = mlookup m k' := by
  rw [minsert, mlookup, if_neg h, mlookup_merase_ne m k k' h]

/-! ## Attester data model (src/commands/attester.go) -/

/-- Rate-limited issuance protocol type tag, `0x0003`
(attester.go line 35 and the pat-go constant `RateLimitedTokenType`). -/
def rateLimitedTokenType : Nat := 3

/-- Basic public token type tag of the external pat-go library, `0x0002`;
only its distinctness from `rateLimitedTokenType` matters here. -/
def basicPublicTokenType : Nat := 2

/-- Per-client attester state (attester.go `ClientState`): a map from
hex-encoded anonymous origin id to hex-encoded stable index, and a map
from hex-encoded anonymous origin id to a per-origin count (Go `int`). -/
structure ClientState where
  originIndices : List (String × String)
  originCounts : List (String × Int)
deriving DecidableEq, Repr

/-- The attester's process-wide `clientState` map, keyed by client id. -/
abbrev AttesterState := List (String × ClientState)

/-- One inbound attestation request as the handler observes it.  Boolean
fields record the outcome of the corresponding fallible step in the Go
code; `anonOriginHdr` carries the hex encoding of the parsed
`sec-token-origin` header (`none` = parse failure); `sigValid` is the
result of `ecdsa.Verify` over the SHA-384 digest of the reconstructed
message. -/
structure AttesterRequest where
  methodIsPost : Bool
  contentTypeOk : Bool
  issuerParam : String
  bodyReadOk : Bool
  composeOk : Bool
  newRequestOk : Bool
  tokenType : Nat
  rlUnmarshalOk : Bool
  anonOriginHdr : Option String
  clientKeyHdrOk : Bool
  requestBlindHdrOk : Bool
  clientIDHdr : String
  sigValid : Bool
deriving Repr

/-- The issuer's behaviour on the forwarded request. `limitHdr`:
`none` = `sec-token-limit` header absent, `some none` = present but not
numeric, `some (some L)` = parsed limit `L`. `indexResult` is the
hex-encoded output of the opaque `pat.FinalizeIndex` computation
(`none` = error). -/
structure IssuerResponse where
  doOk : Bool
  limitHdr : Option (Option Int)
  bodyReadOk : Bool
  body : String
  blindedKeyHdrOk : Bool
  indexResult : Option String
deriving Repr

/-- What the handler writes back: `reject s` is `http.Error` with status
`s`; `success b` is a 200 with the blind-signature bytes `b`;
`noResponse` is the handler returning without writing anything (the
client sees an empty 200). -/
inductive AttesterOutcome
  | reject (status : Nat)
  | success (body : String)
  | noResponse
deriving DecidableEq, Repr

/-- Result of one handler run: the response, whether the forwarding call
`a.client.Do` was attempted, and the new `clientState` map. -/
structure AttesterResult where
  outcome : AttesterOutcome
  forwarded : Bool
  state : AttesterState
deriving DecidableEq, Repr

/-- Shallow embedding of `TestAttester.handleAttestationRequest`
(attester.go lines 57-303).  Checks appear in source order.  In the
index-mismatch branch (lines 258-263) the Go rejection is guarded by
`if err != nil`, but `err` is necessarily `nil` there (a non-nil
`FinalizeIndex` error returned at line 227), so control falls through to
line 277 and the blind signature is written with no state change; the
embedding reproduces that fall-through.  Note also that the count
increment and limit check (lines 266-268) key `originCounts` by the
hex-encoded index, while initialisation (lines 240, 253) keys it by the
hex-encoded anonymous origin id. -/
def handleAttestationRequest (st : AttesterState) (req : AttesterRequest)
    (isr : IssuerResponse) : AttesterResult :=
  if req.methodIsPost = false then ⟨.reject 400, false, st⟩
  else if req.contentTypeOk = false then ⟨.reject 400, false, st⟩
  else if req.issuerParam = "" then ⟨.reject 400, false, st⟩
  else if req.bodyReadOk = false then ⟨.reject 400, false, st⟩
  else if req.composeOk = false then ⟨.reject 400, false, st⟩
  else if req.newRequestOk = false then ⟨.reject 400, false, st⟩
  else if req.tokenType = rateLimitedTokenType then
    if req.rlUnmarshalOk = false then ⟨.reject 400, false, st⟩
    else
      match req.anonOriginHdr with
      | none => ⟨.reject 400, false, st⟩
      | some anonOriginEnc =>
        if req.clientKeyHdrOk = false then ⟨.reject 400, false, st⟩
        else if req.requestBlindHdrOk = false then ⟨.reject 400, false, st⟩
        else
          let clientID :=
            if req.clientIDHdr = "" then "default" else req.clientIDHdr
          -- second Unmarshal of the same body (line 142): same outcome
          if req.rlUnmarshalOk = false then ⟨.reject 400, false, st⟩
          else if req.sigValid = false then ⟨.reject 400, false, st⟩
          else if isr.doOk = false then ⟨.reject 400, true, st⟩
          else
            match isr.limitHdr with
            | none => ⟨.reject 400, true, st⟩
            | some none => ⟨.reject 400, true, st⟩
            | some (some tokenLimit) =>
              if isr.bodyReadOk = false then ⟨.reject 400, true, st⟩
              else if isr.blindedKeyHdrOk = false then ⟨.reject 400, true, st⟩
              else
                match isr.indexResult with
                | none => ⟨.reject 400, true, st⟩
                | some indexEnc =>
                  match mlookup st clientID with
                  | none =>
                      ⟨.success isr.body, true,
                        minsert st clientID
                          ⟨minsert [] anonOriginEnc indexEnc,
                           minsert [] anonOriginEnc 1⟩⟩
                  | some cs =>
                    match mlookup cs.originIndices anonOriginEnc with
                    | none =>
                        ⟨.success isr.body, true,
                          minsert st clientID
                            ⟨minsert cs.originIndices anonOriginEnc indexEnc,
                             minsert cs.originCounts anonOriginEnc 1⟩⟩
                    | some oldIndexEnc =>
                      if oldIndexEnc ≠ indexEnc then
                        -- vacuous err-nil guard: silently fall through
                        ⟨.success isr.body, true, st⟩
                      else
                        let newCount :=
                          (mlookup cs.originCounts indexEnc).getD 0 + 1
                        let st' := minsert st clientID
                          ⟨cs.originIndices,
                           minsert cs.originCounts indexEnc newCount⟩
                        if newCount ≥ tokenLimit then ⟨.reject 429, true, st'⟩
                        else ⟨.success isr.body, true, st'⟩
  else if req.tokenType = basicPublicTokenType then
    if isr.doOk = false then ⟨.reject 400, true, st⟩
    else if isr.bodyReadOk = false then ⟨.reject 400, true, st⟩
    else ⟨.success isr.body, true, st⟩
  else ⟨.noResponse, false, st⟩

/-! ## Origin data model (src/commands/origin.go) -/

/-- The `pat.TokenChallenge` value as the origin builds it (origin.go
lines 99-104):
token type, issuer name, origin-info list, redemption nonce (bytes). -/
structure TokenChallenge where
  tokenType : Nat
  issuerName : String
  originInfo : List String
  redemptionNonce : List Nat
deriving DecidableEq, Repr

/-- The origin's immutable configuration fields used by challenge
creation. -/
structure OriginConfig where
  issuerName : String
  originName : String
  additionalOriginInfo : List String
deriving Repr

/-- The client-controlled attributes `CreateChallenge` reads.
`nonInteractive` / `crossOrigin`: the corresponding header or query
parameter is non-empty.  `typeSignal`: the `Sec-CH-Token-Type` header or
`type` query parameter is non-empty; `typeHdrAtoi` / `typeQueryAtoi` are
the `strconv.Atoi` results for the header and query values (`none` =
parse error). -/
structure ChallengeAttributes where
  nonInteractive : Bool
  crossOrigin : Bool
  typeSignal : Bool
  typeHdrAtoi : Option Int
  typeQueryAtoi : Option Int
deriving Repr

/-- Challenge construction inside `Origin.CreateChallenge` (origin.go
lines 62-104).  `freshNonce` is the 32-byte buffer filled by
`rand.Reader.Read`; sampling itself is outside the model. -/
def createChallenge (o : OriginConfig) (r : ChallengeAttributes)
    (freshNonce : List Nat) : TokenChallenge :=
  let nonce := if r.nonInteractive then [] else freshNonce
  let originInfo :=
    if r.crossOrigin then [] else o.originName :: o.additionalOriginInfo
  let tokenType :=
    if r.typeSignal then
      match r.typeHdrAtoi with
      | some t =>
          if t = (basicPublicTokenType : Int) then basicPublicTokenType
          else rateLimitedTokenType
      | none =>
        match r.typeQueryAtoi with
        | some t =>
            if t = (basicPublicTokenType : Int) then basicPublicTokenType
            else rateLimitedTokenType
        | none => rateLimitedTokenType
    else rateLimitedTokenType
  ⟨tokenType, o.issuerName, originInfo, nonce⟩

/-- The origin's `challenges` map: hex-encoded context (SHA-256 of the
serialized challenge) to the FIFO queue of outstanding challenges. -/
abbrev ChallengeMap := List (String × List TokenChallenge)

/-- The map update at the end of `CreateChallenge` (origin.go lines
114-118): create an empty queue if the context is new, then append. -/
def challengeAdd (m : ChallengeMap) (ctx : String) (c : TokenChallenge) :
    ChallengeMap :=
  let q := (mlookup m ctx).getD []
  minsert m ctx (q ++ [c])

/-- The queue write of a redemption pop (origin.go lines 187-192): the
queue is replaced by the tail of the value that was read, and the map
entry is deleted if the written queue is empty.  Taking the read value as
an argument lets the same definition describe both the locked-free
sequential handler and a stale concurrent write. -/
def popWrite (m : ChallengeMap) (ctx : String) (q : List TokenChallenge) :
    ChallengeMap :=
  match q with
  | [] => m
  | _ :: rest => if rest.isEmpty then merase m ctx else minsert m ctx rest

/-- A redemption attempt as `handleRequest` observes it (origin.go lines
155-212).  Boolean fields record the outcomes of the fallible parsing
steps; `context` is the hex encoding of `token.Context`;
`verifiesBasic` / `verifiesRateLimited` are the `rsa.VerifyPSS` outcomes
under the basic and the rate-limited validation key respectively. -/
structure RedeemRequest where
  authSchemeOk : Bool
  b64Ok : Bool
  tokenUnmarshalOk : Bool
  context : String
  verifiesBasic : Bool
  verifiesRateLimited : Bool
deriving DecidableEq, Repr

/-- Origin response on the redemption path: `reject s` is `http.Error`
with status `s`; `grant b` is a 200 carrying the fetched resource
body `b`. -/
inductive RedeemOutcome
  | reject (status : Nat)
  | grant (body : String)
deriving DecidableEq, Repr

/-- Shallow embedding of the credential-bearing path of
`Origin.handleRequest` (origin.go lines 155-239).  `fetch` models the
upstream resource fetch: `none` = any failure of the fetch pipeline
(all reported as 500), `some b` = body `b`.  The result is `none` only
when the looked-up queue is empty, where the Go code would panic
indexing `challengeList[0]`; such states are unreachable (see the
challenge-map invariant below). -/
def redeem (m : ChallengeMap) (r : RedeemRequest) (fetch : Option String) :
    Option (RedeemOutcome × ChallengeMap) :=
  if r.authSchemeOk = false then some (.reject 400, m)
  else if r.b64Ok = false then some (.reject 400, m)
  else if r.tokenUnmarshalOk = false then some (.reject 400, m)
  else
    match mlookup m r.context with
    | none => some (.reject 400, m)
    | some [] => none
    | some (c :: rest) =>
      if (if c.tokenType = basicPublicTokenType then r.verifiesBasic
          else r.verifiesRateLimited) = false
      then some (.reject 400, popWrite m r.context (c :: rest))
      else
        match fetch with
        | none => some (.reject 500, popWrite m r.context (c :: rest))
        | some body => some (.grant body, popWrite m r.context (c :: rest))

/-! ## Concurrency model for the challenge-queue pop

`Origin.handleRequest` pops `o.challenges` without acquiring
`challengeLock` (origin.go lines 179-192), and both handler methods use a
value receiver, so the `Lock` in `CreateChallenge` (line 112) acts on a
per-call copy of the mutex.  Each inbound request runs on its own
goroutine, so two redemptions of the same context may interleave freely
between the map read (line 179/186) and the map write (lines 187-192).
`popRead` and `popWrite` are those two shared-memory accesses; an
interleaving is a sequence of such atomic accesses. -/

/-- The shared-map read of a redemption pop (origin.go line 179). -/
def popRead (m : ChallengeMap) (ctx : String) :
    Option (List TokenChallenge) :=
  mlookup m ctx

/-- The interleaving read-A, read-B, write-A, write-B of two concurrent
redemptions of the same context: both goroutines read the queue before
either writes it back, so each pops the head of the queue it read.
Returns the challenge consumed by each goroutine and the final map. -/
def interleavedDoublePop (m : ChallengeMap) (ctx : String) :
    Option (TokenChallenge × TokenChallenge × ChallengeMap) :=
  match popRead m ctx with
  | some (a :: qa) =>
    match popRead m ctx with
    | some (b :: qb) =>
        let m1 := popWrite m ctx (a :: qa)
        let m2 := popWrite m1 ctx (b :: qb)
        some (a, b, m2)
    | _ => none
  | _ => none

/-! ## Scenario scaffolding -/

/-- Every context key present in the `challenges` map holds a non-empty
queue. -/
def challengeMapInv (m : ChallengeMap) : Prop :=
  ∀ ctx q, mlookup m ctx = some q → q ≠ []

/-- A rate-limited attestation request that passes every check: all four
structured headers parse (`anonOrigin` being the hex-encoded anonymous
origin id), the body unmarshals and its signature verifies. -/
def rlGoodRequest (anonOrigin clientID : String) : AttesterRequest :=
  ⟨true, true, "issuer.example", true, true, true, rateLimitedTokenType,
   true, some anonOrigin, true, true, clientID, true⟩

/-- An issuer interaction that succeeds with advertised limit `limit`,
blind signature `body`, and derived index `indexEnc`. -/
def rlGoodIssuer (limit : Int) (indexEnc body : String) : IssuerResponse :=
  ⟨true, some (some limit), true, body, true, some indexEnc⟩

/-- State evolution of one identical rate-limited request. -/
def rlStep (a i cid body : String) (L : Int) (st : AttesterState) :
    AttesterState :=
  (handleAttestationRequest st (rlGoodRequest a cid) (rlGoodIssuer L i body)).state

/-- Attester state after `n` identical rate-limited requests from client
`cid` for anonymous origin id `a`, each deriving index `i`, against an
issuer advertising limit `L`, starting from the empty state. -/
def rlStateAfter (a i cid body : String) (L : Int) : Nat → AttesterState
  | 0 => []
  | n + 1 => rlStep a i cid body L (rlStateAfter a i cid body L n)

/-- The response to the `k`-th such request (`k ≥ 1`). -/
def rlOutcome (a i cid body : String) (L : Int) (k : Nat) : AttesterOutcome :=
  (handleAttestationRequest (rlStateAfter a i cid body L (k - 1))
    (rlGoodRequest a cid) (rlGoodIssuer L i body)).outcome

/-- The `originCounts` map of the single client after `n ≥ 1` requests in
the scenario above: the first request books the count under the anonymous
origin id, every later request increments under the index key. -/
def rlCountsAfter (a i : String) : Nat → List (String × Int)
  | 0 => []
  | 1 => [(a, 1)]
  | n + 2 => [(i, (n : Int) + 1), (a, 1)]

/-- Sequential execution of a batch of attester requests: final state,
number of forwarding calls attempted, and the list of responses. -/
def runRequests (st : AttesterState) :
    List (AttesterRequest × IssuerResponse) →
      AttesterState × Nat × List AttesterOutcome
  | [] => (st, 0, [])
  | (req, isr) :: rest =>
    let r := handleAttestationRequest st req isr
    let (st', n, outs) := runRequests r.state rest
    (st', (if r.forwarded then 1 else 0) + n, r.outcome :: outs)

/-- A basic-type request that passes the generic checks preceding the
token-type dispatch (method, content type, issuer parameter, body read,
URL composition, forwarding-request construction). -/
def basicWellFormed (req : AttesterRequest) : Bool :=
  req.methodIsPost && req.contentTypeOk && !(req.issuerParam == "") &&
    req.bodyReadOk && req.composeOk && req.newRequestOk &&
    (req.tokenType == basicPublicTokenType)

/-- The response the basic-proxy branch produces for issuer behaviour
`isr`: the issuer's body verbatim on success, 400 on a failed forward or
an unreadable issuer body. -/
def basicExpectedOutcome (isr : IssuerResponse) : AttesterOutcome :=
  if isr.doOk = false then .reject 400
  else if isr.bodyReadOk = false then .reject 400
  else .success isr.body

/-! ## Helper lemmas -/

theorem challengeMapInv_merase (m : ChallengeMap) (ctx : String)
    (h : challengeMapInv m) : challengeMapInv (merase m ctx) := by
  intro ctx' q hq
  by_cases hc : ctx = ctx'
  · subst hc
    rw [mlookup_merase_self] at hq
    exact absurd hq (by simp)
  · rw [mlookup_merase_ne m ctx ctx' hc] at hq
    exact h ctx' q hq

theorem challengeMapInv_minsert (m : ChallengeMap) (ctx : String)
    (q : List TokenChallenge) (h : challengeMapInv m) (hq : q ≠ []) :
    challengeMapInv (minsert m ctx q) := by
  intro ctx' q' hq'
  by_cases hc : ctx = ctx'
  · subst hc
    rw [mlookup_minsert_self] at hq'
    cases hq'
    exact hq
  · rw [mlookup_minsert_ne m ctx ctx' q hc] at hq'
    exact h ctx' q' hq'

theorem challengeMapInv_popWrite (m : ChallengeMap) (ctx : String)
    (q : List TokenChallenge) (h : challengeMapInv m) :
    challengeMapInv (popWrite m ctx q) := by
  match q with
  | [] => exact h
  | c :: rest =>
      rw [popWrite]
      by_cases he : rest.isEmpty
      · rw [if_pos he]
        exact challengeMapInv_merase m ctx h
      · rw [if_neg he]
        exact challengeMapInv_minsert m ctx rest h
          (by simpa [List.isEmpty_iff] using he)

/-! ## Claims -/

/-- C1: the spec requires that a known (client, origin) pair whose newly
derived index differs from the recorded one is rejected with 400 and the
issuer's signed response withheld.  The code instead silently accepts the
mismatch: the rejection at attester.go lines 259-263 sits under an
`if err != nil` guard that can never hold there, so the handler falls
through and returns the issuer's blind signature with a 200.  Evaluated
here at a concrete failing input: recorded index `"00"`, newly derived
index `"11"`. -/
theorem index_mismatch_returns_issuer_signature :
    handleAttestationRequest
      [("alice", ⟨[("aa", "00")], [("aa", 1)]⟩)]
      (rlGoodRequest "aa" "alice") (rlGoodIssuer 5 "11" "sig")
    = ⟨.success "sig", true, [("alice", ⟨[("aa", "00")], [("aa", 1)]⟩)]⟩ := by
  decide

/-- C9: the spec requires every read-check-update sequence on the
origin's challenge-queue map to be atomic, so two concurrent redemptions
never double-pop.  `handleRequest` pops the queue holding no lock (and
the value receiver makes `challengeLock` a per-call copy), so the
interleaving read-A, read-B, write-A, write-B is possible; starting from
one queued challenge, both goroutines consume that same challenge. -/
theorem unlocked_concurrent_pops_consume_same_challenge :
    interleavedDoublePop
      [("ctx", [⟨rateLimitedTokenType, "issuer.example", [], []⟩])] "ctx"
    = some (⟨rateLimitedTokenType, "issuer.example", [], []⟩,
            ⟨rateLimitedTokenType, "issuer.example", [], []⟩, []) := by
  decide

/-- C2 counterexample, two failure modes of the claim as stated.
First, limit 0: the claim demands that zero requests succeed and the
first request be rejected with 429, but the first request from an unseen
client is recorded and answered with the issuer's signature before any
limit check, so it succeeds.  Second, colliding encodings: when the
hex-encoded derived index equals the hex-encoded anonymous origin id
(here both `"aa"`), the count initialised under the anonymous-origin key
(attester.go:240) is the same entry the increment under the index key
reads (line 266), so with limit 2 the second request already reaches
count 2 ≥ 2 and is rejected with 429 — only `L - 1` requests succeed. -/
theorem quota_claim_fails_at_zero_limit_and_colliding_encodings :
    (rlOutcome "aa" "bb" "alice" "sig" 0 1 = .success "sig" ∧
        rlOutcome "aa" "bb" "alice" "sig" 0 1 ≠ .reject 429) ∧
      (rlOutcome "aa" "aa" "alice" "sig" 2 2 = .reject 429 ∧
        rlOutcome "aa" "aa" "alice" "sig" 2 2 ≠ .success "sig") := by
  decide

/-- C5 counterexample: two challenges that serialize identically (here:
cross-origin and non-interactive, so origin-info and nonce are empty) are
queued under the same context.  A valid credential for that context is
then granted twice: the second presentation of the already-redeemed
credential pops the second queue entry instead of being rejected. -/
theorem duplicate_context_allows_replay :
    (redeem
        (challengeAdd
          (challengeAdd [] "ctx" ⟨rateLimitedTokenType, "issuer.example", [], []⟩)
          "ctx" ⟨rateLimitedTokenType, "issuer.example", [], []⟩)
        ⟨true, true, true, "ctx", false, true⟩ (some "resource")
      = some (.grant "resource",
          [("ctx", [⟨rateLimitedTokenType, "issuer.example", [], []⟩])])) ∧
    (redeem [("ctx", [⟨rateLimitedTokenType, "issuer.example", [], []⟩])]
        ⟨true, true, true, "ctx", false, true⟩ (some "resource")
      = some (.grant "resource", [])) := by
  decide

/-- First request from an unseen client: state is initialised with count 1
under the anonymous origin id and the issuer's signature is returned. -/
theorem rlStep_nil (a i cid body : String) (L : Int) (hcid : cid ≠ "") :
    handleAttestationRequest [] (rlGoodRequest a cid) (rlGoodIssuer L i body)
    = ⟨.success body, true, [(cid, ⟨[(a, i)], [(a, 1)]⟩)]⟩ := by
  simp [handleAttestationRequest, rlGoodRequest, rlGoodIssuer, hcid,
    mlookup, minsert, merase, rateLimitedTokenType]

/-- Later request on a bound pair whose re-derived index matches: the
count keyed by the index is incremented and the limit check applied. -/
theorem rlStep_known (a i cid body : String) (L : Int)
    (counts : List (String × Int)) (hcid : cid ≠ "") :
    handleAttestationRequest [(cid, ⟨[(a, i)], counts⟩)]
      (rlGoodRequest a cid) (rlGoodIssuer L i body)
    = (if (mlookup counts i).getD 0 + 1 ≥ L
       then ⟨.reject 429, true,
         [(cid, ⟨[(a, i)], minsert counts i ((mlookup counts i).getD 0 + 1)⟩)]⟩
       else ⟨.success body, true,
         [(cid, ⟨[(a, i)], minsert counts i ((mlookup counts i).getD 0 + 1)⟩)]⟩) := by
  simp [handleAttestationRequest, rlGoodRequest, rlGoodIssuer, hcid,
    mlookup, minsert, merase, rateLimitedTokenType]

/-- State component of `rlStep_known`. -/
theorem rlStep_known_state (a i cid body : String) (L : Int)
    (counts : List (String × Int)) (hcid : cid ≠ "") :
    (handleAttestationRequest [(cid, ⟨[(a, i)], counts⟩)]
        (rlGoodRequest a cid) (rlGoodIssuer L i body)).state
    = [(cid, ⟨[(a, i)], minsert counts i ((mlookup counts i).getD 0 + 1)⟩)] := by
  rw [rlStep_known a i cid body L counts hcid]
  split <;> rfl

/-- Outcome component of `rlStep_known`. -/
theorem rlStep_known_outcome (a i cid body : String) (L : Int)
    (counts : List (String × Int)) (hcid : cid ≠ "") :
    (handleAttestationRequest [(cid, ⟨[(a, i)], counts⟩)]
        (rlGoodRequest a cid) (rlGoodIssuer L i body)).outcome
    = (if (mlookup counts i).getD 0 + 1 ≥ L
       then .reject 429 else .success body) := by
  rw [rlStep_known a i cid body L counts hcid]
  split <;> rfl

/-- One increment step of the per-origin count map. -/
theorem rlCounts_step (a i : String) (ha : a ≠ i) (m : Nat) :
    minsert (rlCountsAfter a i (m + 1)) i
        ((mlookup (rlCountsAfter a i (m + 1)) i).getD 0 + 1)
      = rlCountsAfter a i (m + 2) := by
  cases m with
  | zero => simp [rlCountsAfter, mlookup, minsert, merase, ha]
  | succ k =>
      simp only [rlCountsAfter, mlookup, minsert, merase, if_pos rfl,
        if_neg ha, Option.getD_some]
      push_cast
      simp only [Option.getD_some]

/-- The count recorded under the index key after `k + 1` requests. -/
theorem rlCounts_lookup (a i : String) (ha : a ≠ i) (k : Nat) :
    (mlookup (rlCountsAfter a i (k + 1)) i).getD 0 + 1 = (k : Int) + 1 := by
  cases k with
  | zero => simp [rlCountsAfter, mlookup, ha]
  | succ j =>
      simp only [rlCountsAfter, mlookup, if_pos rfl, Option.getD_some]
      push_cast
      simp only [Option.getD_some]

/-- Closed form of the attester state in the single-pair scenario. -/
theorem rlStateAfter_eq (a i cid body : String) (L : Int) (ha : a ≠ i)
    (hcid : cid ≠ "") (n : Nat) :
    rlStateAfter a i cid body L (n + 1)
      = [(cid, ⟨[(a, i)], rlCountsAfter a i (n + 1)⟩)] := by
  induction n with
  | zero =>
      show rlStep a i cid body L (rlStateAfter a i cid body L 0)
        = [(cid, ⟨[(a, i)], rlCountsAfter a i 1⟩)]
      rw [rlStateAfter, rlStep, rlStep_nil a i cid body L hcid]
      rfl
  | succ m ih =>
      show rlStep a i cid body L (rlStateAfter a i cid body L (m + 1))
        = [(cid, ⟨[(a, i)], rlCountsAfter a i (m + 2)⟩)]
      rw [ih, rlStep, rlStep_known_state a i cid body L _ hcid,
        rlCounts_step a i ha m]

/-- The first request of the scenario is answered with the issuer's
signature. -/
theorem rlOutcome_one (a i cid body : String) (L : Int) (hcid : cid ≠ "") :
    rlOutcome a i cid body L 1 = .success body := by
  show (handleAttestationRequest (rlStateAfter a i cid body L 0)
      (rlGoodRequest a cid) (rlGoodIssuer L i body)).outcome = _
  rw [rlStateAfter, rlStep_nil a i cid body L hcid]

/-- The `k + 2`-nd request of the scenario is rejected with 429 exactly
when the incremented count `k + 1` reaches the advertised limit. -/
theorem rlOutcome_ge_two (a i cid body : String) (L : Int) (ha : a ≠ i)
    (hcid : cid ≠ "") (k : Nat) :
    rlOutcome a i cid body L (k + 2)
      = (if (k : Int) + 1 ≥ L then .reject 429 else .success body) := by
  show (handleAttestationRequest (rlStateAfter a i cid body L (k + 1))
      (rlGoodRequest a cid) (rlGoodIssuer L i body)).outcome = _
  rw [rlStateAfter_eq a i cid body L ha hcid k,
    rlStep_known_outcome a i cid body L _ hcid,
    rlCounts_lookup a i ha k]

/-- C2 (amended: limit at least 1, and the hex-encoded derived index
distinct from the hex-encoded anonymous origin id — both restrictions
witnessed by the counterexample): for an issuer-advertised limit `L ≥ 1`
and a single (client, origin) pair whose requests all verify and
re-derive the same index `i ≠ a`, requests 1 through `L` are answered
with the issuer's signed bytes and every request beyond the `L`-th — in
particular the `(L+1)`-th — is rejected with 429.  The client id header
is taken non-empty; an absent header resolves to the client id
`"default"`, for which the same statement is the `cid = "default"`
instance. -/
theorem quota_exactly_limit_requests_succeed (a i cid body : String)
    (L : Int) (ha : a ≠ i) (hcid : cid ≠ "") (hL : 1 ≤ L) :
    (∀ k : Nat, 1 ≤ k → (k : Int) ≤ L →
        rlOutcome a i cid body L k = .success body) ∧
      ∀ k : Nat, L < (k : Int) → rlOutcome a i cid body L k = .reject 429 := by
  constructor
  · intro k hk1 hkL
    match k, hk1 with
    | 1, _ => exact rlOutcome_one a i cid body L hcid
    | (j + 2), _ =>
        rw [rlOutcome_ge_two a i cid body L ha hcid j, if_neg]
        push_cast at hkL
        omega
  · intro k hk
    obtain ⟨j, rfl⟩ : ∃ j, k = j + 2 := ⟨k - 2, by omega⟩
    rw [rlOutcome_ge_two a i cid body L ha hcid j, if_pos]
    push_cast at hk
    omega

/-- Witness for C2 at limit 2: requests 1 and 2 succeed, request 3 is
rejected with 429 (the end-to-end scenario of the spec). -/
theorem quota_exactly_limit_requests_succeed_witness :
    rlOutcome "aa" "bb" "alice" "sig" 2 1 = .success "sig" ∧
      rlOutcome "aa" "bb" "alice" "sig" 2 2 = .success "sig" ∧
      rlOutcome "aa" "bb" "alice" "sig" 2 3 = .reject 429 := by
  have h := quota_exactly_limit_requests_succeed "aa" "bb" "alice" "sig" 2
    (by decide) (by decide) (by norm_num)
  exact ⟨h.1 1 (by norm_num) (by norm_num), h.1 2 (by norm_num) (by norm_num),
    h.2 3 (by norm_num)⟩

/-- C3: a rate-limited request whose body fails to unmarshal, or whose
ECDSA signature over the SHA-384 digest of the reconstructed message
fails to verify, is answered with 400, the forwarding call to the issuer
is never made, and the client state is untouched. -/
theorem decode_or_signature_failure_rejects_without_forward
    (st : AttesterState) (req : AttesterRequest) (isr : IssuerResponse)
    (htype : req.tokenType = rateLimitedTokenType)
    (h : req.rlUnmarshalOk = false ∨ req.sigValid = false) :
    handleAttestationRequest st req isr = ⟨.reject 400, false, st⟩ := by
  rcases h with h | h <;>
    · unfold handleAttestationRequest
      repeat' split <;> simp_all


/-- Witness for C3: an otherwise well-formed rate-limited request whose
signature fails to verify is rejected 400 and not forwarded. -/
theorem decode_or_signature_failure_rejects_without_forward_witness :
    handleAttestationRequest []
      ⟨true, true, "issuer.example", true, true, true, rateLimitedTokenType,
        true, some "aa", true, true, "alice", false⟩
      (rlGoodIssuer 2 "bb" "sig")
    = ⟨.reject 400, false, []⟩ :=
  decode_or_signature_failure_rejects_without_forward [] _ _ rfl (Or.inr rfl)

/-- C4: at the origin, a redemption whose context has no queue is
rejected with 400 and the state is untouched; when a queue exists, its
oldest challenge is popped before verification, and on authenticator
failure the request is rejected with 400 while the popped challenge stays
consumed: the resulting queue is exactly the tail (the map entry is gone
when the tail is empty). -/
theorem redeem_no_challenge_or_bad_authenticator
    (m : ChallengeMap) (r : RedeemRequest) (fetch : Option String)
    (hp : r.authSchemeOk = true) (hb : r.b64Ok = true)
    (ht : r.tokenUnmarshalOk = true) :
    (mlookup m r.context = none → redeem m r fetch = some (.reject 400, m)) ∧
      (∀ c rest, mlookup m r.context = some (c :: rest) →
        (if c.tokenType = basicPublicTokenType then r.verifiesBasic
         else r.verifiesRateLimited) = false →
        redeem m r fetch
            = some (.reject 400, popWrite m r.context (c :: rest)) ∧
          mlookup (popWrite m r.context (c :: rest)) r.context
            = (if rest.isEmpty then none else some rest)) := by
  constructor
  · intro hnone
    simp [redeem, hp, hb, ht, hnone]
  · intro c rest hq hsig
    constructor
    · simp [redeem, hp, hb, ht, hq, hsig]
    · rw [popWrite]
      by_cases he : rest.isEmpty
      · rw [if_pos he, if_pos he, mlookup_merase_self]
      · rw [if_neg he, if_neg he, mlookup_minsert_self]

/-- Witness for C4 covering both arms on a two-entry map: an unknown
context is rejected with the map unchanged, and a failing authenticator
consumes the single queued challenge of its context. -/
theorem redeem_no_challenge_or_bad_authenticator_witness :
    (mlookup [("other", [(⟨rateLimitedTokenType, "issuer.example", [], []⟩ :
          TokenChallenge)])] "ctx" = none →
      redeem [("other", [(⟨rateLimitedTokenType, "issuer.example", [], []⟩ :
          TokenChallenge)])] ⟨true, true, true, "ctx", false, false⟩ none
        = some (.reject 400,
            [("other", [⟨rateLimitedTokenType, "issuer.example", [], []⟩])])) ∧
      (∀ c rest,
        mlookup [("other", [(⟨rateLimitedTokenType, "issuer.example", [], []⟩ :
            TokenChallenge)])] "ctx" = some (c :: rest) →
        (if c.tokenType = basicPublicTokenType then false else false) = false →
        redeem [("other", [(⟨rateLimitedTokenType, "issuer.example", [], []⟩ :
              TokenChallenge)])] ⟨true, true, true, "ctx", false, false⟩ none
            = some (.reject 400,
                popWrite [("other",
                  [⟨rateLimitedTokenType, "issuer.example", [], []⟩])] "ctx"
                  (c :: rest)) ∧
          mlookup (popWrite [("other",
              [⟨rateLimitedTokenType, "issuer.example", [], []⟩])] "ctx"
              (c :: rest)) "ctx"
            = (if rest.isEmpty then none else some rest)) :=
  redeem_no_challenge_or_bad_authenticator
    [("other", [⟨rateLimitedTokenType, "issuer.example", [], []⟩])]
    ⟨true, true, true, "ctx", false, false⟩ none rfl rfl rfl

/-- C5 (amended: no other identically-serialized challenge left queued):
once a credential has been redeemed and no further challenge with the
same context remains in the queue, presenting the same credential again
is rejected with 400. -/
theorem replay_rejected_when_context_queue_exhausted
    (m : ChallengeMap) (r : RedeemRequest) (fetch : Option String)
    (c : TokenChallenge) (hp : r.authSchemeOk = true) (hb : r.b64Ok = true)
    (ht : r.tokenUnmarshalOk = true)
    (hq : mlookup m r.context = some [c]) :
    ∀ out m', redeem m r fetch = some (out, m') →
      redeem m' r fetch = some (.reject 400, m') := by
  intro out m' hred
  have hm' : m' = merase m r.context := by
    simp [redeem, hp, hb, ht, hq, popWrite] at hred
    repeat' split at hred
    all_goals simp only [Option.some.injEq, Prod.mk.injEq] at hred
    all_goals exact hred.2.symm
  subst hm'
  simp [redeem, hp, hb, ht, mlookup_merase_self]

/-- Witness for C5's amended statement: after the only challenge of a
context is consumed by a successful redemption, the same credential is
rejected with 400. -/
theorem replay_rejected_when_context_queue_exhausted_witness :
    redeem [] ⟨true, true, true, "ctx", false, true⟩ (some "resource")
      = some (.reject 400, []) := by
  have h := replay_rejected_when_context_queue_exhausted
    [("ctx", [⟨rateLimitedTokenType, "issuer.example", [], []⟩])]
    ⟨true, true, true, "ctx", false, true⟩ (some "resource")
    ⟨rateLimitedTokenType, "issuer.example", [], []⟩
    rfl rfl rfl (by decide) (.grant "resource") [] (by decide)
  simpa using h

/-- A single well-formed basic request takes the proxy branch: it is
forwarded, the issuer's body is returned verbatim on success, and the
client state is left untouched. -/
theorem basicStep (st : AttesterState) (req : AttesterRequest)
    (isr : IssuerResponse) (h : basicWellFormed req = true) :
    handleAttestationRequest st req isr
      = ⟨basicExpectedOutcome isr, true, st⟩ := by
  simp only [basicWellFormed, Bool.and_eq_true, beq_iff_eq,
    Bool.not_eq_true', beq_eq_false_iff_ne] at h
  obtain ⟨⟨⟨⟨⟨⟨h1, h2⟩, h3⟩, h4⟩, h5⟩, h6⟩, h7⟩ := h
  cases hdo : isr.doOk <;> cases hbr : isr.bodyReadOk <;>
    simp [handleAttestationRequest, basicExpectedOutcome, h1, h2, h3, h4,
      h5, h6, h7, hdo, hbr, rateLimitedTokenType, basicPublicTokenType]

/-- C6: the attester is a pure proxy for basic-type requests.  Running
any batch of well-formed basic requests leaves the client-state map
exactly as it was (starting empty it stays empty: zero state entries),
attempts exactly one forward per request (`N` requests, `N` forwards),
and answers each with the issuer's body verbatim (400 when the forward
or the response-body read fails). -/
theorem basic_requests_pure_proxy (st : AttesterState)
    (reqs : List (AttesterRequest × IssuerResponse))
    (h : ∀ p ∈ reqs, basicWellFormed p.1 = true) :
    runRequests st reqs
      = (st, reqs.length, reqs.map fun p => basicExpectedOutcome p.2) := by
  induction reqs generalizing st with
  | nil => rfl
  | cons p rest ih =>
      obtain ⟨req, isr⟩ := p
      have hp := h (req, isr) (List.mem_cons_self _ _)
      simp only [runRequests, basicStep st req isr hp,
        ih st (fun q hq => h q (List.mem_cons_of_mem _ hq))]
      simp [Nat.add_comm]

/-- Witness for C6: two basic requests from the empty state produce two
forwards, two verbatim issuer bodies, and an unchanged (still empty)
state. -/
theorem basic_requests_pure_proxy_witness :
    runRequests []
      [(⟨true, true, "issuer.example", true, true, true, basicPublicTokenType,
          true, none, true, true, "", true⟩,
        ⟨true, none, true, "sigA", true, none⟩),
       (⟨true, true, "issuer.example", true, true, true, basicPublicTokenType,
          true, none, true, true, "", true⟩,
        ⟨true, none, true, "sigB", true, none⟩)]
      = ([], 2, [.success "sigA", .success "sigB"]) := by
  have h := basic_requests_pure_proxy []
    [(⟨true, true, "issuer.example", true, true, true, basicPublicTokenType,
        true, none, true, true, "", true⟩,
      ⟨true, none, true, "sigA", true, none⟩),
     (⟨true, true, "issuer.example", true, true, true, basicPublicTokenType,
        true, none, true, true, "", true⟩,
      ⟨true, none, true, "sigB", true, none⟩)]
    (by decide)
  simpa [basicExpectedOutcome] using h

/-- C7: a created challenge has an empty redemption nonce exactly when
the caller signalled non-interactive, an empty origin-info list exactly
when the caller signalled cross-origin, and otherwise carries the fresh
32-byte nonce and the configured origin name followed by the extra
configured names. -/
theorem challenge_fields_follow_attributes (o : OriginConfig)
    (r : ChallengeAttributes) (nonce0 : List Nat)
    (h : nonce0.length = 32) :
    ((createChallenge o r nonce0).redemptionNonce
        = if r.nonInteractive then [] else nonce0) ∧
      (r.nonInteractive = false →
        (createChallenge o r nonce0).redemptionNonce.length = 32) ∧
      ((createChallenge o r nonce0).originInfo
        = if r.crossOrigin then []
          else o.originName :: o.additionalOriginInfo) := by
  refine ⟨rfl, ?_, rfl⟩
  intro hni
  simp [createChallenge, hni, h]

/-- Witness for C7: with neither signal set, the challenge carries the
32-byte nonce and the configured origin-info list. -/
theorem challenge_fields_follow_attributes_witness :
    (createChallenge ⟨"issuer.example", "origin.example", ["alt.example"]⟩
        ⟨false, false, false, none, none⟩
        (List.replicate 32 0)).redemptionNonce.length = 32 := by
  have h := challenge_fields_follow_attributes
    ⟨"issuer.example", "origin.example", ["alt.example"]⟩
    ⟨false, false, false, none, none⟩ (List.replicate 32 0) (by simp)
  exact h.2.1 rfl

/-- C8: if every context key of the challenges map holds a non-empty
queue, then (a) adding a challenge preserves this and appends to the
context's queue (creating it when absent), and (b) any redemption
attempt preserves it: the pop either shortens the queue or deletes the
emptied map entry. -/
theorem challenge_map_operations_preserve_invariant
    (m : ChallengeMap) (h : challengeMapInv m) :
    (∀ ctx c, challengeMapInv (challengeAdd m ctx c) ∧
        mlookup (challengeAdd m ctx c) ctx
          = some ((mlookup m ctx).getD [] ++ [c])) ∧
      (∀ r fetch out m', redeem m r fetch = some (out, m') →
        challengeMapInv m') := by
  constructor
  · intro ctx c
    constructor
    · exact challengeMapInv_minsert m ctx _ h (by simp)
    · simp [challengeAdd, mlookup_minsert_self]
  · intro r fetch out m' hred
    unfold redeem at hred
    repeat' split at hred
    all_goals
      first
      | exact Option.noConfusion hred
      | (simp only [Option.some.injEq, Prod.mk.injEq] at hred
         rw [← hred.2]
         first
         | exact h
         | exact challengeMapInv_popWrite m r.context _ h)

/-- Witness for C8: the empty map satisfies the invariant, so both the
append characterization and preservation hold from it. -/
theorem challenge_map_operations_preserve_invariant_witness :
    (∀ ctx c, challengeMapInv (challengeAdd [] ctx c) ∧
        mlookup (challengeAdd [] ctx c) ctx
          = some ((mlookup ([] : ChallengeMap) ctx).getD [] ++ [c])) ∧
      (∀ r fetch out m', redeem [] r fetch = some (out, m') →
        challengeMapInv m') :=
  challenge_map_operations_preserve_invariant []
    (fun ctx q hq => by simp [mlookup] at hq)

/-- C10: a request that passes the method, content-type, issuer-parameter
and body checks but carries a token-type tag that is neither rate-limited
nor basic falls out of the two-branch dispatch: the handler returns
without writing (empty 200), nothing is forwarded, and the client state
is unchanged. -/
theorem unknown_token_type_writes_nothing (st : AttesterState)
    (req : AttesterRequest) (isr : IssuerResponse)
    (h1 : req.methodIsPost = true) (h2 : req.contentTypeOk = true)
    (h3 : req.issuerParam ≠ "") (h4 : req.bodyReadOk = true)
    (h5 : req.composeOk = true) (h6 : req.newRequestOk = true)
    (h7 : req.tokenType ≠ rateLimitedTokenType)
    (h8 : req.tokenType ≠ basicPublicTokenType) :
    handleAttestationRequest st req isr = ⟨.noResponse, false, st⟩ := by
  simp [handleAttestationRequest, h1, h2, h3, h4, h5, h6, h7, h8]

/-- Witness for C10: token type 1 (neither 3 nor 2) yields the empty
response with no forward and no state change. -/
theorem unknown_token_type_writes_nothing_witness :
    handleAttestationRequest []
      ⟨true, true, "issuer.example", true, true, true, 1, true, none,
        true, true, "", true⟩
      ⟨true, none, true, "sig", true, none⟩
      = ⟨.noResponse, false, []⟩ :=
  unknown_token_type_writes_nothing [] _ _ rfl rfl (by decide) rfl rfl rfl
    (by decide) (by decide)
